import Mathlib

/-!
Shallow embedding of the order-construction, pre-trade-validation and
signed-request pipeline of the Binance futures testnet trading helper
(src/cli.py, src/ui.py, src/trading_bot.py, src/config.py).

Numeric quantities and prices are modelled as rationals; a fallible network
fetch is modelled by an `Option` result (`none` = the call raised); a wire
request is a record of the keyword arguments the code passes to the client.
-/

namespace TradingBot

/-- Order side (cli `--side`, ui radio): BUY or SELL. -/
inductive Side
  | buy
  | sell
deriving DecidableEq, Repr

/-- Order kind offered by both frontends: MARKET, LIMIT, STOP_LIMIT. -/
inductive OrderKind
  | market
  | limit
  | stopLimit
deriving DecidableEq, Repr

/-- Time-in-force choices (cli `--tif`, ui selectbox): GTC, IOC, FOK. -/
inductive Tif
  | gtc
  | ioc
  | fok
deriving DecidableEq, Repr

/-- How a numeric value is placed on the wire by the keyword arguments of
`client.futures_create_order` in trading_bot.py: `asNumber q` models passing
the numeric value through unchanged (quantity), `asDecimalString q` models
`str(q)` (price, stopPrice): transmission as the decimal string that denotes
exactly the value `q`. -/
inductive WireVal
  | asNumber (q : ℚ)
  | asDecimalString (q : ℚ)
deriving DecidableEq, Repr

/-- The keyword-argument set handed to `client.futures_create_order` in
trading_bot.py; a keyword the call does not pass is `none`. -/
structure OrderRequest where
  symbol : String
  side : Side
  type : String
  quantity : WireVal
  price : Option WireVal
  stopPrice : Option WireVal
  timeInForce : Option Tif
  workingType : Option String
  recvWindow : Option Nat
deriving DecidableEq, Repr

/-- trading_bot.py `BasicBot.place_market_order`: builds the MARKET request;
the call passes symbol, side, type, quantity and recvWindow=5000 and nothing
else, unconditionally. -/
def place_market_order (symbol : String) (side : Side) (quantity : ℚ) : OrderRequest :=
  { symbol := symbol
    side := side
    type := "MARKET"
    quantity := .asNumber quantity
    price := none
    stopPrice := none
    timeInForce := none
    workingType := none
    recvWindow := some 5000 }

/-- trading_bot.py `BasicBot.place_limit_order`: builds the LIMIT request with
timeInForce, quantity as a number, price as `str(price)`, recvWindow=5000. -/
def place_limit_order (symbol : String) (side : Side) (quantity : ℚ) (price : ℚ)
    (time_in_force : Tif) : OrderRequest :=
  { symbol := symbol
    side := side
    type := "LIMIT"
    quantity := .asNumber quantity
    price := some (.asDecimalString price)
    stopPrice := none
    timeInForce := some time_in_force
    workingType := none
    recvWindow := some 5000 }

/-- trading_bot.py `BasicBot.place_stop_limit_order`: builds the STOP request
with timeInForce, quantity as a number, price and stopPrice as decimal strings,
workingType="MARK_PRICE", recvWindow=5000. -/
def place_stop_limit_order (symbol : String) (side : Side) (quantity : ℚ) (price : ℚ)
    (stop_price : ℚ) (time_in_force : Tif) : OrderRequest :=
  { symbol := symbol
    side := side
    type := "STOP"
    quantity := .asNumber quantity
    price := some (.asDecimalString price)
    stopPrice := some (.asDecimalString stop_price)
    timeInForce := some time_in_force
    workingType := some "MARK_PRICE"
    recvWindow := some 5000 }

/-- A non-order adapter call, recorded as the endpoint invoked and the
recvWindow keyword passed to it (`none` when the code passes no recvWindow). -/
structure AdapterRequest where
  endpoint : String
  recvWindow : Option Nat
deriving DecidableEq, Repr

/-- trading_bot.py `BasicBot.get_account_info`: calls `client.futures_account()`
with no arguments, in particular with no recvWindow keyword. -/
def futures_account_request : AdapterRequest :=
  { endpoint := "futures_account", recvWindow := none }

/-- cli.py / ui.py mark-price fetch: `bot.client.futures_mark_price(symbol=symbol)`,
passing only the symbol and no recvWindow keyword. -/
def futures_mark_price_request (symbol : String) : AdapterRequest :=
  { endpoint := "futures_mark_price " ++ symbol, recvWindow := none }

/-- Guard verdict: proceed, or block carrying the computed notional estimate and
the threshold used in the rendered explanation. -/
inductive GuardResult
  | allow
  | block (estimate threshold : ℚ)
deriving DecidableEq, Repr

/-- Full observable behaviour of one notional-guard check: the verdict, whether
the fail-open warning was emitted, and whether the mark-price endpoint was
consulted. -/
structure GuardCheck where
  result : GuardResult
  warned : Bool
  fetchedMark : Bool
deriving DecidableEq, Repr

/-- cli.py `validate_notional` (behaviourally identical to ui.py
`validate_notional_size`): when `price` is given use it, otherwise fetch the
mark price (`fetchMark` is the fetch's outcome, `none` = the call raised);
on fetch failure warn and allow (fail-open); otherwise block exactly when
price × quantity < 100, carrying the estimate and the threshold 100. -/
def validate_notional (fetchMark : Option ℚ) (qty : ℚ) (price : Option ℚ) : GuardCheck :=
  match price with
  | some p =>
      let notional := p * qty
      if notional < 100 then
        { result := .block notional 100, warned := false, fetchedMark := false }
      else
        { result := .allow, warned := false, fetchedMark := false }
  | none =>
      match fetchMark with
      | some m =>
          let notional := m * qty
          if notional < 100 then
            { result := .block notional 100, warned := false, fetchedMark := true }
          else
            { result := .allow, warned := false, fetchedMark := true }
      | none => { result := .allow, warned := true, fetchedMark := true }

/-- The effective price the guard multiplies by the quantity: the supplied
price when present, else the fetched mark price when the fetch succeeded. -/
def effective_price (fetchMark : Option ℚ) : Option ℚ → Option ℚ
  | some p => some p
  | none => fetchMark

/-- The timestamp offset a fresh client starts with before any synchronization
(the client library initializes `timestamp_offset` to zero; spec: "zero on
first run"). -/
def initial_timestamp_offset : Int := 0

/-- trading_bot.py `BasicBot._sync_time_with_server`: on a successful server
time fetch store offset = serverTime − local ms; on any failure (`none`) warn
and leave the previous offset in place. Returns (new offset, warned). The
function is total: no exception escapes it. -/
def sync_time_with_server (fetchServerTime : Option Int) (localMs : Int)
    (prevOffset : Int) : Int × Bool :=
  match fetchServerTime with
  | some serverTime => (serverTime - localMs, false)
  | none => (prevOffset, true)

/-- Fields of a successful order response that the frontends display. -/
structure OrderSnapshot where
  orderId : Int
  status : String
deriving DecidableEq, Repr

/-- Raw outcome of one submission attempt, as distinguished by the except
clauses of cli.py `main` / ui.py `main`: a success payload, a
`BinanceAPIException` (structured exchange error with numeric code and
message), a `BinanceRequestException` (transport-level failure with no
structured exchange response), or any other exception. -/
inductive SubmitOutcome
  | success (payload : OrderSnapshot)
  | apiError (code : Int) (message : String)
  | requestError (description : String)
  | otherError (description : String)
deriving DecidableEq, Repr

/-- Classified outcome rendered to the user by cli.py / ui.py `main`. -/
inductive Classified
  | accepted (payload : OrderSnapshot)
  | rejectedByExchange (code : Int) (message : String) (guidance : Option String)
  | transportFailure (description : String)
  | unclassifiedFailure (description : String)
deriving DecidableEq, Repr

/-- Header line of the generic exchange-rejection rendering in cli.py. -/
def generic_rejection_header : String := "Order rejected by Binance:"

/-- The extra guidance text cli.py prints when the exchange code is -4164. -/
def min_notional_guidance : String :=
  "This usually means price * quantity is below 100 USDT."

/-- The result classifier of cli.py `main` (mirrored by ui.py `main`): success
maps to accepted; a structured exchange error maps to rejectedByExchange with
code and message verbatim, plus the minimum-notional guidance exactly for code
-4164; a transport failure maps to transportFailure; anything else maps to
unclassifiedFailure. Total: no submission failure crashes the process. -/
def classify_order_result : SubmitOutcome → Classified
  | .success payload => .accepted payload
  | .apiError code message =>
      .rejectedByExchange code message
        (if code = -4164 then some min_notional_guidance else none)
  | .requestError description => .transportFailure description
  | .otherError description => .unclassifiedFailure description

/-- cli.py `parse_positive_float`, numeric stage: the string-to-float
conversion is modelled as the already-converted rational argument (a
non-numeric string is a distinct argparse error, not modelled); a converted
value ≤ 0 is rejected with the argparse type error. -/
def parse_positive_float (val : ℚ) : Except String ℚ :=
  if val ≤ 0 then .error "value must be greater than zero" else .ok val

/-- The condition ui.py tests on an optional price field:
`not limit_price or limit_price <= 0`. A Python `None` and `0.0` are both
falsy, so this holds exactly when the field is absent or ≤ 0. -/
def price_missing_or_nonpos : Option ℚ → Bool
  | none => true
  | some p => decide (p ≤ 0)

/-- The kind-specific required-field checks of ui.py `main` (lines 126-133),
run before the notional guard and before any request is built: LIMIT needs a
present positive limit price; STOP_LIMIT needs both prices present and
positive; MARKET needs neither. Returns the rendered error, or `none`. -/
def validate_order_fields (kind : OrderKind) (limitPrice stopPrice : Option ℚ) :
    Option String :=
  match kind with
  | .limit =>
      if price_missing_or_nonpos limitPrice then
        some "Limit price must be set and > 0 for LIMIT orders."
      else none
  | .stopLimit =>
      if price_missing_or_nonpos limitPrice || price_missing_or_nonpos stopPrice then
        some "Both limit price and stop price must be > 0 for STOP_LIMIT."
      else none
  | .market => none

/-- Terminal outcome of one ui.py place-order attempt. -/
inductive Outcome
  | localValidationFailure (message : String)
  | guardBlocked (estimate threshold : ℚ)
  | classified (c : Classified)
deriving DecidableEq, Repr

/-- The price ui.py hands to the notional guard: `None` for MARKET, the limit
price for LIMIT and STOP_LIMIT. -/
def guard_price (kind : OrderKind) (limitPrice : Option ℚ) : Option ℚ :=
  match kind with
  | .market => none
  | .limit => limitPrice
  | .stopLimit => limitPrice

/-- The builder call ui.py makes once all local checks passed; for LIMIT and
STOP_LIMIT the prices are present at this point, extracted with default 0. -/
def build_request (symbol : String) (side : Side) (kind : OrderKind) (qty : ℚ)
    (limitPrice stopPrice : Option ℚ) (tif : Tif) : OrderRequest :=
  match kind with
  | .market => place_market_order symbol side qty
  | .limit => place_limit_order symbol side qty (limitPrice.getD 0) tif
  | .stopLimit =>
      place_stop_limit_order symbol side qty (limitPrice.getD 0) (stopPrice.getD 0) tif

/-- Steps the guard verdict to the terminal outcome: block renders the
explanation and returns; allow continues with the rest of the attempt. -/
def guard_gate (g : GuardResult) (next : Unit → Outcome) : Outcome :=
  match g with
  | .block estimate threshold => .guardBlocked estimate threshold
  | .allow => next ()

/-- The place-order pipeline of ui.py `main` (button handler): symbol check,
quantity check, kind-specific field checks, notional guard (fetching the mark
price only for MARKET), then build, submit and classify. `submit` is the
response of the exchange to the built request. -/
def ui_place_order (symbol : String) (side : Side) (kind : OrderKind) (qty : ℚ)
    (limitPrice stopPrice : Option ℚ) (tif : Tif) (fetchMark : Option ℚ)
    (submit : OrderRequest → SubmitOutcome) : Outcome :=
  if symbol = "" then
    .localValidationFailure "Symbol is required."
  else if qty ≤ 0 then
    .localValidationFailure "Quantity must be greater than zero."
  else
    match validate_order_fields kind limitPrice stopPrice with
    | some message => .localValidationFailure message
    | none =>
        guard_gate (validate_notional fetchMark qty (guard_price kind limitPrice)).result
          (fun _ =>
            .classified (classify_order_result
              (submit (build_request symbol side kind qty limitPrice stopPrice tif))))

/-- Drops the characters satisfying `p` from both ends of a string (the shape
of the Python strip method). -/
def dropEnds (p : Char → Bool) (s : String) : String :=
  String.mk (((s.toList.dropWhile p).reverse.dropWhile p).reverse)

/-- Python `value.strip()`: surrounding whitespace removed. -/
def pyStrip (s : String) : String := dropEnds Char.isWhitespace s

/-- Python `value.strip(c)` for a single character: surrounding runs of `c`
removed. -/
def stripChar (c : Char) (s : String) : String := dropEnds (fun x => x = c) s

/-- config.py `_clean`: `value.strip().strip(QUOTE).strip(APOSTROPHE)` on a
present value, `None` passed through. -/
def _clean : Option String → Option String
  | none => none
  | some value => some (stripChar '\'' (stripChar '"' (pyStrip value)))

/-- config.py module body, credentials part: clean both values; raise if either
is missing or empty (Python truthiness of `API_KEY and API_SECRET`); raise if
either cleaned value is shorter than 20 characters; otherwise the cleaned pair
is what `create_bot_from_config` hands to the adapter. -/
def load_credentials (key secret : Option String) : Except String (String × String) :=
  match _clean key, _clean secret with
  | some k, some s =>
      if k = "" ∨ s = "" then
        .error "API credentials not found (.env or Streamlit secrets)."
      else if k.length < 20 ∨ s.length < 20 then
        .error "API key/secret look too short. Check .env / secrets formatting."
      else .ok (k, s)
  | _, _ => .error "API credentials not found (.env or Streamlit secrets)."

/-- Holds exactly when a cleaned credential is present and at least 20
characters long (an empty string fails the length bound as well). -/
def cred_long_enough : Option String → Bool
  | none => false
  | some k => decide (20 ≤ k.length)

/-- Boolean success test for `Except`. -/
def exceptIsOk : Except String (String × String) → Bool
  | .ok _ => true
  | .error _ => false

/-- Adapter state right after `BasicBot.__init__`. -/
structure BotState where
  apiKey : String
  apiSecret : String
  testnet : Bool
  timestampOffset : Int
deriving DecidableEq, Repr

/-- trading_bot.py `create_bot_from_config` composed with the config.py module
body: credential loading runs first and its error aborts before any adapter
state exists; on success the adapter is built from the cleaned credentials and
one clock synchronization runs from the library's zero initial offset. -/
def create_bot_from_config (key secret : Option String) (testnet : Bool)
    (fetchServerTime : Option Int) (localMs : Int) : Except String BotState :=
  (load_credentials key secret).map fun ks =>
    { apiKey := ks.1
      apiSecret := ks.2
      testnet := testnet
      timestampOffset :=
        (sync_time_with_server fetchServerTime localMs initial_timestamp_offset).1 }

/-- Helper: the ui.py optional-price test holds exactly when the field is
absent or holds a non-positive value. -/
theorem price_missing_or_nonpos_iff (o : Option ℚ) :
    price_missing_or_nonpos o = true ↔ o = none ∨ ∃ p, o = some p ∧ p ≤ 0 := by
  cases o with
  | none => simp [price_missing_or_nonpos]
  | some p => simp [price_missing_or_nonpos]

/-- C2: for every complete trade intent, the built wire request has exactly the
kind-specific field set: MARKET carries symbol, side, type and quantity with no
price, stop price or timeInForce; LIMIT adds the price as an exact decimal
string and a timeInForce; STOP_LIMIT adds price and stop price as exact decimal
strings, a timeInForce and workingType="MARK_PRICE"; quantity is transmitted as
a number in every case. -/
theorem order_builder_field_sets (sym : String) (side : Side) (q p sp : ℚ) (tif : Tif) :
    ((place_market_order sym side q).symbol = sym ∧
      (place_market_order sym side q).side = side ∧
      (place_market_order sym side q).type = "MARKET" ∧
      (place_market_order sym side q).quantity = .asNumber q ∧
      (place_market_order sym side q).price = none ∧
      (place_market_order sym side q).stopPrice = none ∧
      (place_market_order sym side q).timeInForce = none ∧
      (place_market_order sym side q).workingType = none) ∧
    ((place_limit_order sym side q p tif).symbol = sym ∧
      (place_limit_order sym side q p tif).side = side ∧
      (place_limit_order sym side q p tif).type = "LIMIT" ∧
      (place_limit_order sym side q p tif).quantity = .asNumber q ∧
      (place_limit_order sym side q p tif).price = some (.asDecimalString p) ∧
      (place_limit_order sym side q p tif).stopPrice = none ∧
      (place_limit_order sym side q p tif).timeInForce = some tif ∧
      (place_limit_order sym side q p tif).workingType = none) ∧
    ((place_stop_limit_order sym side q p sp tif).symbol = sym ∧
      (place_stop_limit_order sym side q p sp tif).side = side ∧
      (place_stop_limit_order sym side q p sp tif).quantity = .asNumber q ∧
      (place_stop_limit_order sym side q p sp tif).price = some (.asDecimalString p) ∧
      (place_stop_limit_order sym side q p sp tif).stopPrice = some (.asDecimalString sp) ∧
      (place_stop_limit_order sym side q p sp tif).timeInForce = some tif ∧
      (place_stop_limit_order sym side q p sp tif).workingType = some "MARK_PRICE") :=
  ⟨⟨rfl, rfl, rfl, rfl, rfl, rfl, rfl, rfl⟩,
   ⟨rfl, rfl, rfl, rfl, rfl, rfl, rfl, rfl⟩,
   ⟨rfl, rfl, rfl, rfl, rfl, rfl, rfl⟩⟩

/-- C4: when the guard must fetch the mark price (no supplied price) and the
fetch fails, the guard allows the attempt (fail-open) and records a warning;
the guard function is total, so the failure never escapes as an exception. -/
theorem notional_guard_fail_open (q : ℚ) :
    validate_notional none q none
      = { result := .allow, warned := true, fetchedMark := true } := rfl

/-- C5: clock synchronization stores offset = server time − local time in
milliseconds (1000 and 900 give 100, starting from the zero initial offset);
on fetch failure it warns and keeps the previous offset; the function is
total, so no exception propagates past it. -/
theorem clock_sync_offset (s l prev : Int) :
    sync_time_with_server (some s) l prev = (s - l, false) ∧
    sync_time_with_server none l prev = (prev, true) ∧
    sync_time_with_server (some 1000) 900 initial_timestamp_offset = (100, false) :=
  ⟨rfl, rfl, by decide⟩

/-- C6: the classifier maps a structured exchange error to RejectedByExchange
with code and message verbatim, attaching the minimum-notional guidance exactly
for code -4164 (a text distinct from the generic rejection header); a transport
failure maps to TransportFailure; any other failure maps to UnclassifiedFailure
with its description preserved; the classifier is total, so no submission
failure crashes the process. -/
theorem classify_order_result_spec (c : Int) (m d : String) (p : OrderSnapshot) :
    classify_order_result (.apiError c m)
        = .rejectedByExchange c m
            (if c = -4164 then some min_notional_guidance else none) ∧
    classify_order_result (.apiError (-4164) m)
        = .rejectedByExchange (-4164) m (some min_notional_guidance) ∧
    classify_order_result (.requestError d) = .transportFailure d ∧
    classify_order_result (.otherError d) = .unclassifiedFailure d ∧
    classify_order_result (.success p) = .accepted p ∧
    min_notional_guidance ≠ generic_rejection_header := by
  refine ⟨rfl, by simp [classify_order_result], rfl, rfl, rfl, by decide⟩

/-- C7 counterexample: the account query and the mark-price query are sent with
no receive-window keyword at all, so not every adapter request carries the
fixed receive-window grace value. -/
theorem account_request_no_recv_window_cex :
    futures_account_request.recvWindow = none ∧
    (futures_mark_price_request "BTCUSDT").recvWindow = none :=
  ⟨rfl, rfl⟩

/-- C7 (amended): each of the three order-submission requests carries the fixed
receive-window grace value 5000, while the account query and the mark-price
query pass no receive window. -/
theorem recv_window_fields (sym : String) (side : Side) (q p sp : ℚ) (tif : Tif) :
    (place_market_order sym side q).recvWindow = some 5000 ∧
    (place_limit_order sym side q p tif).recvWindow = some 5000 ∧
    (place_stop_limit_order sym side q p sp tif).recvWindow = some 5000 ∧
    futures_account_request.recvWindow = none ∧
    (futures_mark_price_request sym).recvWindow = none :=
  ⟨rfl, rfl, rfl, rfl, rfl⟩

/-- C8 counterexample: the builder methods perform no quantity check: each of
the three builders constructs a full wire request for a non-positive quantity
instead of returning a validation failure. -/
theorem builder_accepts_nonpositive_qty_cex :
    place_market_order "BTCUSDT" .buy (-1)
      = { symbol := "BTCUSDT", side := .buy, type := "MARKET",
          quantity := .asNumber (-1), price := none, stopPrice := none,
          timeInForce := none, workingType := none, recvWindow := some 5000 } ∧
    (place_limit_order "BTCUSDT" .buy 0 100 .gtc).quantity = .asNumber 0 ∧
    (place_stop_limit_order "BTCUSDT" .sell (-1) 100 90 .gtc).quantity = .asNumber (-1) :=
  ⟨rfl, rfl, rfl⟩

/-- C9: when the guard is invoked with a supplied price, its entire observable
behaviour is independent of the mark-price fetch outcome and the mark-price
endpoint is not consulted: the decision involves no network call. -/
theorem guard_no_fetch_with_price (f g : Option ℚ) (q p : ℚ) :
    validate_notional f q (some p) = validate_notional g q (some p) ∧
    (validate_notional f q (some p)).fetchedMark = false := by
  refine ⟨rfl, ?_⟩
  by_cases h : p * q < 100 <;> simp [validate_notional, h]

/-- C1: the kind-specific field validation fails exactly when a field required
by the kind is missing or non-positive (LIMIT: the limit price; STOP_LIMIT:
either price; MARKET: never); and when it fails, the pipeline returns that
LocalValidationFailure and its result is independent of the submission
function, so the failure is produced before any order submission. -/
theorem order_field_validation_spec (kind : OrderKind) (lp sp : Option ℚ) :
    ((validate_order_fields kind lp sp).isSome = true ↔
      (kind = .limit ∧ (lp = none ∨ ∃ p, lp = some p ∧ p ≤ 0)) ∨
      (kind = .stopLimit ∧
        ((lp = none ∨ ∃ p, lp = some p ∧ p ≤ 0) ∨
          (sp = none ∨ ∃ p, sp = some p ∧ p ≤ 0)))) ∧
    (∀ (sym : String) (side : Side) (q : ℚ) (tif : Tif) (f : Option ℚ)
        (submit submit2 : OrderRequest → SubmitOutcome) (msg : String),
      sym ≠ "" → 0 < q → validate_order_fields kind lp sp = some msg →
      ui_place_order sym side kind q lp sp tif f submit
          = .localValidationFailure msg ∧
      ui_place_order sym side kind q lp sp tif f submit
          = ui_place_order sym side kind q lp sp tif f submit2) := by
  constructor
  · cases kind with
    | market => simp [validate_order_fields]
    | limit =>
        by_cases hp : price_missing_or_nonpos lp = true
        · simp [validate_order_fields, hp, (price_missing_or_nonpos_iff lp).mp hp]
        · rw [price_missing_or_nonpos_iff] at hp
          simp [validate_order_fields, (price_missing_or_nonpos_iff lp).not.mpr hp, hp]
    | stopLimit =>
        by_cases hp : price_missing_or_nonpos lp = true
        · simp [validate_order_fields, hp, (price_missing_or_nonpos_iff lp).mp hp]
        · by_cases hs : price_missing_or_nonpos sp = true
          · simp [validate_order_fields, hp, hs, (price_missing_or_nonpos_iff sp).mp hs]
          · rw [price_missing_or_nonpos_iff] at hp hs
            simp [validate_order_fields, (price_missing_or_nonpos_iff lp).not.mpr hp,
              (price_missing_or_nonpos_iff sp).not.mpr hs, hp, hs]
  · intro sym side q tif f submit submit2 msg hsym hq hv
    have hq2 : ¬ q ≤ 0 := not_le.mpr hq
    constructor <;> simp [ui_place_order, hsym, hq2, hv]

/-- C1 witness: a LIMIT attempt with an absent limit price yields exactly the
LocalValidationFailure, before any submission. -/
theorem order_field_validation_spec_witness :
    ui_place_order "BTCUSDT" Side.buy OrderKind.limit 1 none none Tif.gtc none
        (fun _ => SubmitOutcome.otherError "unused")
      = Outcome.localValidationFailure
          "Limit price must be set and > 0 for LIMIT orders." :=
  ((order_field_validation_spec OrderKind.limit none none).2 "BTCUSDT" Side.buy 1
    Tif.gtc none (fun _ => SubmitOutcome.otherError "unused")
    (fun _ => SubmitOutcome.otherError "unused")
    "Limit price must be set and > 0 for LIMIT orders."
    (by decide) (by norm_num) rfl).1

/-- C3: with an available effective price (the supplied price, else the fetched
mark price), the guard computes estimate = effective price × quantity, blocks
with that estimate and threshold 100 exactly when the estimate is below 100,
and otherwise allows, with no warning either way. -/
theorem notional_guard_threshold (f pr : Option ℚ) (q px : ℚ)
    (h : effective_price f pr = some px) :
    (validate_notional f q pr).result
        = (if px * q < 100 then GuardResult.block (px * q) 100 else GuardResult.allow) ∧
    (validate_notional f q pr).warned = false := by
  cases pr with
  | some p =>
      have hp : p = px := by simpa [effective_price] using h
      subst hp
      by_cases hlt : p * q < 100 <;> simp [validate_notional, hlt]
  | none =>
      have hf : f = some px := by simpa [effective_price] using h
      subst hf
      by_cases hlt : px * q < 100 <;> simp [validate_notional, hlt]

/-- C3 witness: price 50 and quantity 1 block with estimate 50 against
threshold 100; price 200 and quantity 1 allow. -/
theorem notional_guard_threshold_witness :
    (validate_notional none 1 (some 50)).result = GuardResult.block 50 100 ∧
    (validate_notional none 1 (some 200)).result = GuardResult.allow := by
  have h1 := notional_guard_threshold none (some 50) 1 50 rfl
  have h2 := notional_guard_threshold none (some 200) 1 200 rfl
  constructor
  · rw [h1.1]; norm_num
  · rw [h2.1]; norm_num

/-- C8 (amended): a non-positive quantity is rejected at intent-construction
time, before any request is built: the CLI argument type rejects it and the ui
pipeline returns the quantity validation failure without consulting the
submission function; the builder methods themselves perform no quantity
check. -/
theorem nonpositive_qty_rejected_upstream (q : ℚ) (hq : q ≤ 0) :
    parse_positive_float q = .error "value must be greater than zero" ∧
    ∀ (sym : String) (side : Side) (kind : OrderKind) (lp sp : Option ℚ) (tif : Tif)
      (f : Option ℚ) (submit submit2 : OrderRequest → SubmitOutcome),
      sym ≠ "" →
      ui_place_order sym side kind q lp sp tif f submit
          = .localValidationFailure "Quantity must be greater than zero." ∧
      ui_place_order sym side kind q lp sp tif f submit
          = ui_place_order sym side kind q lp sp tif f submit2 := by
  refine ⟨by simp [parse_positive_float, hq], ?_⟩
  intro sym side kind lp sp tif f submit submit2 hsym
  constructor <;> simp [ui_place_order, hsym, hq]

/-- C8 amended witness: quantity 0 is rejected by the CLI type check and by the
ui pipeline. -/
theorem nonpositive_qty_rejected_upstream_witness :
    parse_positive_float 0 = .error "value must be greater than zero" ∧
    ui_place_order "BTCUSDT" Side.buy OrderKind.market 0 none none Tif.gtc none
        (fun _ => SubmitOutcome.otherError "unused")
      = Outcome.localValidationFailure "Quantity must be greater than zero." := by
  have h := nonpositive_qty_rejected_upstream 0 (by norm_num)
  exact ⟨h.1, (h.2 "BTCUSDT" Side.buy OrderKind.market none none Tif.gtc none
    (fun _ => SubmitOutcome.otherError "unused")
    (fun _ => SubmitOutcome.otherError "unused") (by decide)).1⟩

/-- C10: credential loading succeeds exactly when both values, after stripping
surrounding whitespace and quote characters, are present and at least 20
characters long (an empty value fails as well); on success the stripped values
are what reaches the adapter, and on failure the error aborts before any
adapter state is constructed. -/
theorem load_credentials_spec (key secret : Option String) :
    (exceptIsOk (load_credentials key secret)
        = (cred_long_enough (_clean key) && cred_long_enough (_clean secret))) ∧
    (∀ k s, load_credentials key secret = .ok (k, s) →
      _clean key = some k ∧ _clean secret = some s) ∧
    (∀ e, load_credentials key secret = .error e →
      ∀ (t : Bool) (f : Option Int) (l : Int),
        create_bot_from_config key secret t f l = .error e) ∧
    (∀ k s, load_credentials key secret = .ok (k, s) →
      ∀ (t : Bool) (f : Option Int) (l : Int),
        ∃ b, create_bot_from_config key secret t f l = .ok b ∧
          b.apiKey = k ∧ b.apiSecret = s) := by
  refine ⟨?_, ?_, ?_, ?_⟩
  · rcases hk : _clean key with _ | k <;> rcases hs : _clean secret with _ | s <;>
      simp only [load_credentials, hk, hs]
    · simp [cred_long_enough, exceptIsOk]
    · simp [cred_long_enough, exceptIsOk]
    · simp [cred_long_enough, exceptIsOk]
    · by_cases he : k = "" ∨ s = ""
      · rw [if_pos he]
        rcases he with rfl | rfl <;> simp [cred_long_enough, exceptIsOk]
      · rw [if_neg he]
        by_cases hl : k.length < 20 ∨ s.length < 20
        · rw [if_pos hl]
          rcases hl with h | h
          · simp [cred_long_enough, exceptIsOk, Nat.not_le.mpr h]
          · simp [cred_long_enough, exceptIsOk, Nat.not_le.mpr h]
        · rw [if_neg hl]
          push_neg at hl
          simp [cred_long_enough, exceptIsOk, hl.1, hl.2]
  · intro k s hok
    rcases hk : _clean key with _ | k0 <;> rcases hs : _clean secret with _ | s0 <;>
      simp only [load_credentials, hk, hs] at hok
    · exact Except.noConfusion hok
    · exact Except.noConfusion hok
    · exact Except.noConfusion hok
    · split at hok
      · exact Except.noConfusion hok
      · split at hok
        · exact Except.noConfusion hok
        · simp only [Except.ok.injEq, Prod.mk.injEq] at hok
          obtain ⟨h1, h2⟩ := hok
          subst h1; subst h2
          exact ⟨rfl, rfl⟩
  · intro e he t f l
    simp [create_bot_from_config, he, Except.map]
  · intro k s hok t f l
    refine ⟨BotState.mk k s t
      (sync_time_with_server f l initial_timestamp_offset).1, ?_, rfl, rfl⟩
    simp [create_bot_from_config, hok, Except.map]

/-- C10 witness: concrete values with surrounding whitespace and quotes load as
the stripped 22- and 24-character credentials and reach the adapter state. -/
theorem load_credentials_spec_witness :
    load_credentials (some "  ABCDEFGHIJKLMNOPQRSTUV ")
        (some "'SECRETSECRETSECRETSECRET'")
      = .ok ("ABCDEFGHIJKLMNOPQRSTUV", "SECRETSECRETSECRETSECRET") ∧
    _clean (some "  ABCDEFGHIJKLMNOPQRSTUV ") = some "ABCDEFGHIJKLMNOPQRSTUV" ∧
    ∃ b, create_bot_from_config (some "  ABCDEFGHIJKLMNOPQRSTUV ")
          (some "'SECRETSECRETSECRETSECRET'") true (some 1000) 900 = .ok b ∧
        b.apiKey = "ABCDEFGHIJKLMNOPQRSTUV" ∧
        b.apiSecret = "SECRETSECRETSECRETSECRET" := by
  have hok : load_credentials (some "  ABCDEFGHIJKLMNOPQRSTUV ")
      (some "'SECRETSECRETSECRETSECRET'")
      = .ok ("ABCDEFGHIJKLMNOPQRSTUV", "SECRETSECRETSECRETSECRET") := by rfl
  refine ⟨hok, ?_, ?_⟩
  · exact ((load_credentials_spec (some "  ABCDEFGHIJKLMNOPQRSTUV ")
      (some "'SECRETSECRETSECRETSECRET'")).2.1 _ _ hok).1
  · exact (load_credentials_spec (some "  ABCDEFGHIJKLMNOPQRSTUV ")
      (some "'SECRETSECRETSECRETSECRET'")).2.2.2 _ _ hok true (some 1000) 900

end TradingBot
